import Mathlib

/-!
Verification of the measurement engine of `speed-cloudflare-cli` (`cli.js`).

The embedding models JavaScript numbers as exact rationals extended with the
IEEE special values (infinities and NaN), so that division by zero and
unparsable-header NaN propagation behave as in the source.  The network is an
oracle (`Net`) mapping a probe index together with the issued request options
and body to the behaviour of that probe: the response events (timestamps and
the `server-timing` header) or a connection-level error.  The statistics
module (`stats.js`) is required by `cli.js` but is not among the sources, so
its functions are modelled from the spec (section 4.1).
-/

namespace SpeedCF

/-- JavaScript number value: an exact rational (ignoring double rounding), or
one of the IEEE special values produced by the arithmetic of `cli.js`
(division by zero, `parseFloat` failure).  ℚ has a single zero, so the sign
of zero is not tracked. -/
inductive JSNum where
  | fin (q : ℚ)
  | posInf
  | negInf
  | nan
  deriving DecidableEq

/-- IEEE-style addition on `JSNum` (exact on finite values). -/
def jsAdd : JSNum → JSNum → JSNum
  | .nan, _ => .nan
  | _, .nan => .nan
  | .posInf, .negInf => .nan
  | .negInf, .posInf => .nan
  | .posInf, _ => .posInf
  | _, .posInf => .posInf
  | .negInf, _ => .negInf
  | _, .negInf => .negInf
  | .fin a, .fin b => .fin (a + b)

/-- IEEE-style subtraction on `JSNum` (exact on finite values). -/
def jsSub : JSNum → JSNum → JSNum
  | .nan, _ => .nan
  | _, .nan => .nan
  | .posInf, .posInf => .nan
  | .negInf, .negInf => .nan
  | .posInf, _ => .posInf
  | .negInf, _ => .negInf
  | _, .posInf => .negInf
  | _, .negInf => .posInf
  | .fin a, .fin b => .fin (a - b)

/-- IEEE-style multiplication on `JSNum` (exact on finite values). -/
def jsMul : JSNum → JSNum → JSNum
  | .nan, _ => .nan
  | _, .nan => .nan
  | .posInf, .posInf => .posInf
  | .posInf, .negInf => .negInf
  | .negInf, .posInf => .negInf
  | .negInf, .negInf => .posInf
  | .posInf, .fin b => if 0 < b then .posInf else if b < 0 then .negInf else .nan
  | .negInf, .fin b => if 0 < b then .negInf else if b < 0 then .posInf else .nan
  | .fin a, .posInf => if 0 < a then .posInf else if a < 0 then .negInf else .nan
  | .fin a, .negInf => if 0 < a then .negInf else if a < 0 then .posInf else .nan
  | .fin a, .fin b => .fin (a * b)

/-- IEEE-style division on `JSNum`: a nonzero finite value divided by zero is
a signed infinity, `0 / 0` is NaN (exact on finite values otherwise). -/
def jsDiv : JSNum → JSNum → JSNum
  | .nan, _ => .nan
  | _, .nan => .nan
  | .posInf, .posInf => .nan
  | .posInf, .negInf => .nan
  | .negInf, .posInf => .nan
  | .negInf, .negInf => .nan
  | .posInf, .fin b => if 0 ≤ b then .posInf else .negInf
  | .negInf, .fin b => if 0 ≤ b then .negInf else .posInf
  | .fin _, .posInf => .fin 0
  | .fin _, .negInf => .fin 0
  | .fin a, .fin b =>
    if b = 0 then
      if 0 < a then .posInf else if a < 0 then .negInf else .nan
    else .fin (a / b)

/-- Model of the binary step of `Math.min`: NaN absorbs, otherwise the
smaller argument. -/
def jsMin2 : JSNum → JSNum → JSNum
  | .nan, _ => .nan
  | _, .nan => .nan
  | .posInf, b => b
  | a, .posInf => a
  | .negInf, _ => .negInf
  | _, .negInf => .negInf
  | .fin a, .fin b => if a ≤ b then .fin a else .fin b

/-- Model of the binary step of `Math.max`. -/
def jsMax2 : JSNum → JSNum → JSNum
  | .nan, _ => .nan
  | _, .nan => .nan
  | .negInf, b => b
  | a, .negInf => a
  | .posInf, _ => .posInf
  | _, .posInf => .posInf
  | .fin a, .fin b => if a ≤ b then .fin b else .fin a

/-- Model of `Math.min(...xs)`: fold from `Infinity` (the value on an empty
argument list). -/
def jsMathMin (xs : List JSNum) : JSNum := xs.foldl jsMin2 .posInf

/-- Model of `Math.max(...xs)`: fold from `-Infinity`. -/
def jsMathMax (xs : List JSNum) : JSNum := xs.foldl jsMax2 .negInf

/-- Total boolean comparison used to model sorting numbers ascending; the
placement of NaN is fixed arbitrarily (the spec's statistics contract only
covers real numbers). -/
def jsLeb : JSNum → JSNum → Bool
  | .nan, _ => true
  | _, .nan => false
  | .negInf, _ => true
  | _, .negInf => false
  | _, .posInf => true
  | .posInf, _ => false
  | .fin a, .fin b => decide (a ≤ b)

/-- Numeric value of a digit string (most significant first). -/
def digitsToNat (ds : List Char) : Nat :=
  ds.foldl (fun n c => 10 * n + (c.toNat - Char.toNat (Char.ofNat 48))) 0

/-- Signed digit run of an ECMAScript exponent part; an empty digit run
contributes exponent 0 (the exponent part is then not a valid suffix and is
ignored, as `parseFloat` does). -/
def expDigits : List Char → Int
  | '+' :: r => (digitsToNat (r.takeWhile Char.isDigit) : Int)
  | '-' :: r => -(digitsToNat (r.takeWhile Char.isDigit) : Int)
  | r => (digitsToNat (r.takeWhile Char.isDigit) : Int)

/-- Exponent marker (`e` or `E`) followed by an optionally signed digit run. -/
def exponentPart : List Char → Int
  | 'e' :: r => expDigits r
  | 'E' :: r => expDigits r
  | _ => 0

/-- ECMAScript whitespace relevant to `parseFloat` trimming. -/
def isSpaceChar (c : Char) : Bool := c = ' ' || c = '\t' || c = '\n' || c = '\r'

/-- Model of the ECMAScript `parseFloat` builtin: skip leading whitespace,
read an optional sign, then the longest prefix that is a decimal literal
(integer digits, optional fraction, optional exponent) or `Infinity`; if no
such prefix exists the result is NaN.  Values are exact rationals. -/
def parseFloat (s : String) : JSNum :=
  let cs0 := s.data.dropWhile isSpaceChar
  let neg : Bool := match cs0 with
    | '-' :: _ => true
    | _ => false
  let cs1 : List Char := match cs0 with
    | '-' :: r => r
    | '+' :: r => r
    | r => r
  if cs1.take 8 = ['I', 'n', 'f', 'i', 'n', 'i', 't', 'y'] then
    if neg then .negInf else .posInf
  else
    let ip := cs1.takeWhile Char.isDigit
    let r1 := cs1.dropWhile Char.isDigit
    let fp : List Char := match r1 with
      | '.' :: r => r.takeWhile Char.isDigit
      | _ => []
    let r2 : List Char := match r1 with
      | '.' :: r => r.dropWhile Char.isDigit
      | r => r
    if ip = [] ∧ fp = [] then .nan
    else
      .fin ((if neg then (-1 : ℚ) else 1) *
        ((digitsToNat ip : ℚ) + (digitsToNat fp : ℚ) / 10 ^ fp.length) *
        10 ^ exponentPart r2)

/-- Model of `String.prototype.slice(n)` (all strings involved are ASCII, so
character positions and UTF-16 positions coincide). -/
def jsSlice (s : String) (n : Nat) : String := ⟨s.data.drop n⟩

/-- Model of `String.prototype.repeat`. -/
def jsRepeat (s : String) (n : Nat) : String := ⟨(List.replicate n s.data).flatten⟩

/-- Model of `Buffer.byteLength`: UTF-8 size of a string. -/
def byteLength (s : String) : Nat := s.data.foldl (fun n c => n + c.utf8Size) 0

/-- The timing tuple resolved by `request` (`cli.js` lines 90-98):
`[started, dnsLookup, tcpHandshake, sslHandshake, ttfb, ended, serverTiming]`.
The three connection-establishment timestamps may be absent (their socket
events need not fire); the parsed `server-timing` value may be NaN. -/
structure TimingSample where
  started : ℚ
  dnsLookup : Option ℚ
  tcpHandshake : Option ℚ
  sslHandshake : Option ℚ
  timeToFirstByte : ℚ
  ended : ℚ
  serverProcessingTimeMs : JSNum
  deriving DecidableEq

/-- Observable events of one completed HTTP exchange, as supplied by the
environment: the timestamps at which the lifecycle callbacks fire and the
`server-timing` response header (absent if the server sent none). -/
structure ResponseEvents where
  started : ℚ
  dnsLookup : Option ℚ
  tcpHandshake : Option ℚ
  sslHandshake : Option ℚ
  timeToFirstByte : ℚ
  ended : ℚ
  serverTiming : Option String
  deriving DecidableEq

/-- Behaviour of one probe, chosen by the environment: either the request
completes with the given events, or it fails at the network level (the
`error` event fires and the promise is rejected). -/
inductive RequestBehavior where
  | respond (ev : ResponseEvents)
  | fail (e : String)
  deriving DecidableEq

/-- Uncaught JavaScript runtime errors of the embedding: reading `.slice` of
`undefined` when the `server-timing` header is missing. -/
inductive JsError where
  | typeError
  deriving DecidableEq

/-- Error taxonomy of the spec expressible against the statistics and
throughput computations: degenerate input. -/
inductive SErr where
  | invalidInput
  deriving DecidableEq

/-- Outcome of `request` (`cli.js` lines 73-121): the promise resolves with a
timing tuple, is rejected with a network error, or the `end` callback throws
an uncaught exception (missing `server-timing` header), which settles nothing
and crashes the process. -/
inductive RequestResult where
  | resolved (t : TimingSample)
  | rejected (e : String)
  | crashed (e : JsError)
  deriving DecidableEq

/-- Whether a request outcome is an uncaught crash. -/
def RequestResult.isCrash : RequestResult → Bool
  | .crashed _ => true
  | _ => false

/-- Whether a behaviour is a network-level failure. -/
def RequestBehavior.isFail : RequestBehavior → Bool
  | .fail _ => true
  | _ => false

deriving instance DecidableEq for Except

/-- Model of `request` (`cli.js` lines 73-121).  On completion the `end`
handler evaluates `parseFloat(res.headers['server-timing'].slice(22))`: if
the header is absent this is `undefined.slice`, an uncaught `TypeError`
thrown outside the promise executor, so the promise never settles
(`crashed`); otherwise the tuple is resolved.  A network error rejects the
promise. -/
def request : RequestBehavior → RequestResult
  | .fail e => .rejected e
  | .respond ev =>
    match ev.serverTiming with
    | none => .crashed .typeError
    | some h =>
      .resolved
        { started := ev.started, dnsLookup := ev.dnsLookup,
          tcpHandshake := ev.tcpHandshake, sslHandshake := ev.sslHandshake,
          timeToFirstByte := ev.timeToFirstByte, ended := ev.ended,
          serverProcessingTimeMs := parseFloat (jsSlice h 22) }

/-- Options of one `https.request` call, as built by `download` and
`upload`. -/
structure RequestOptions where
  hostname : String
  path : String
  method : String
  contentLength : Option Nat
  deriving DecidableEq

/-- The network oracle: behaviour of the `i`-th probe issued with the given
options and request body. -/
abbrev Net := Nat → RequestOptions → String → RequestBehavior

/-- Options built by `download` (`cli.js` lines 123-131): a GET whose path
carries the requested byte count as the `bytes` query parameter. -/
def downloadOptions (bytes : Nat) : RequestOptions :=
  { hostname := "speed.cloudflare.com", path := "/__down?bytes=" ++ toString bytes,
    method := "GET", contentLength := none }

/-- Request body built by `upload` (`cli.js` line 134): `'0'.repeat(bytes)`. -/
def uploadData (bytes : Nat) : String := jsRepeat "0" bytes

/-- Options built by `upload` (`cli.js` lines 133-145): a POST with a
`Content-Length` header equal to `Buffer.byteLength(data)`. -/
def uploadOptions (bytes : Nat) : RequestOptions :=
  { hostname := "speed.cloudflare.com", path := "/__up", method := "POST",
    contentLength := some (byteLength (uploadData bytes)) }

/-- `measureSpeed` (`cli.js` lines 147-149):
`(bytes * 8) / (duration / 1000) / 1e6`, evaluated with JavaScript number
semantics. -/
def measureSpeed (bytes duration : JSNum) : JSNum :=
  jsDiv (jsDiv (jsMul bytes (.fin 8)) (jsDiv duration (.fin 1000))) (.fin 1000000)

/-- Value pushed per successful latency probe (`cli.js` line 158):
`response[4] - response[0] - response[6]`, that is
TTFB minus start minus the server processing time. -/
def latencySample (t : TimingSample) : JSNum :=
  jsSub (.fin (t.timeToFirstByte - t.started)) t.serverProcessingTimeMs

/-- Value pushed per successful download probe (`cli.js` lines 180-181):
`measureSpeed(bytes, response[5] - response[4])`. -/
def downloadSample (bytes : Nat) (t : TimingSample) : JSNum :=
  measureSpeed (.fin (bytes : ℚ)) (.fin (t.ended - t.timeToFirstByte))

/-- Value pushed per successful upload probe (`cli.js` lines 198-199):
`measureSpeed(bytes, response[6])`, using the server-reported processing
duration. -/
def uploadSample (bytes : Nat) (t : TimingSample) : JSNum :=
  measureSpeed (.fin (bytes : ℚ)) t.serverProcessingTimeMs

/-- The shared shape of the three measurement loops of `cli.js` (lines
151-208): starting at probe index `i`, run `n` sequential probes; a resolved
probe pushes its value, a rejected probe logs the error and continues, an
uncaught exception aborts the run. -/
def measureRun (value : TimingSample → JSNum) (probe : Nat → RequestBehavior) :
    Nat → Nat → Except JsError (List JSNum × List String)
  | _, 0 => .ok ([], [])
  | i, n + 1 =>
    match request (probe i) with
    | .crashed e => .error e
    | .rejected e =>
      match measureRun value probe (i + 1) n with
      | .error e2 => .error e2
      | .ok (ms, logs) => .ok (ms, e :: logs)
    | .resolved t =>
      match measureRun value probe (i + 1) n with
      | .error e2 => .error e2
      | .ok (ms, logs) => .ok (value t :: ms, logs)

/-- Sample values of the resolved probes among indices `[i, i+n)`, in probe
order: rejected probes contribute nothing. -/
def runSamples (value : TimingSample → JSNum) (probe : Nat → RequestBehavior)
    (i n : Nat) : List JSNum :=
  (List.range' i n).filterMap fun j =>
    match request (probe j) with
    | .resolved t => some (value t)
    | _ => none

/-- Error messages of the rejected probes among indices `[i, i+n)`, in probe
order. -/
def runLogs (probe : Nat → RequestBehavior) (i n : Nat) : List String :=
  (List.range' i n).filterMap fun j =>
    match request (probe j) with
    | .rejected e => some e
    | _ => none

/-- No probe among indices `[i, i+n)` leads to an uncaught exception. -/
abbrev noCrash (probe : Nat → RequestBehavior) (i n : Nat) : Prop :=
  ∀ j, j < n → (request (probe (i + j))).isCrash = false

/-- Probes issued by the latency stage: `download(1000)` (`cli.js` line
155). -/
def latencyProbe (net : Net) : Nat → RequestBehavior :=
  fun i => net i (downloadOptions 1000) ""

/-- Probes issued by `measureDownload`. -/
def downloadProbe (net : Net) (bytes : Nat) : Nat → RequestBehavior :=
  fun i => net i (downloadOptions bytes) ""

/-- Probes issued by `measureUpload`. -/
def uploadProbe (net : Net) (bytes : Nat) : Nat → RequestBehavior :=
  fun i => net i (uploadOptions bytes) (uploadData bytes)

namespace stats

/-- Modelled from the spec: `stats.js` (the Statistics module required by
`cli.js` line 6) is not among the sources.  Spec section 4.1: `average(xs)`
is sum divided by count, and an empty sequence fails with `InvalidInput`. -/
def average (xs : List JSNum) : Except SErr JSNum :=
  if xs.isEmpty then .error .invalidInput
  else .ok (jsDiv (xs.foldl jsAdd (.fin 0)) (.fin (xs.length : ℚ)))

/-- Insert into an ascending list (step of the sorting used by the
spec-modelled statistics). -/
def insertSorted (x : JSNum) : List JSNum → List JSNum
  | [] => [x]
  | y :: ys => if jsLeb x y then x :: y :: ys else y :: insertSorted x ys

/-- Ascending insertion sort over sample values. -/
def sortSamples (xs : List JSNum) : List JSNum := xs.foldr insertSorted []

/-- Modelled from the spec: `stats.js` is not among the sources.  Spec
section 4.1: `median(xs)` sorts ascending and takes the middle element (odd
count) or the mean of the two middle elements (even count); an empty
sequence fails with `InvalidInput`. -/
def median (xs : List JSNum) : Except SErr JSNum :=
  if xs.isEmpty then .error .invalidInput
  else
    let s := sortSamples xs
    if s.length % 2 = 1 then .ok (s.getD (s.length / 2) .nan)
    else .ok (jsDiv (jsAdd (s.getD (s.length / 2 - 1) .nan) (s.getD (s.length / 2) .nan)) (.fin 2))

/-- Floor of a nonnegative rational, as a natural number. -/
def ratFloorNat (x : ℚ) : Nat := x.num.toNat / x.den

/-- Modelled from the spec: `stats.js` is not among the sources.  Spec
section 4.1: `quantile(xs, q)` (called `quartile` by `cli.js`) sorts
ascending, computes the index `i = q * (n - 1)`, returns the element at `i`
when `i` is integral and otherwise interpolates linearly between the
elements at `floor i` and `ceil i` weighted by the fractional part; an empty
sequence fails with `InvalidInput`. -/
def quartile (xs : List JSNum) (q : ℚ) : Except SErr JSNum :=
  if xs.isEmpty then .error .invalidInput
  else
    let s := sortSamples xs
    let pos : ℚ := q * ((s.length : ℚ) - 1)
    let base : Nat := ratFloorNat pos
    let rest : ℚ := pos - (base : ℚ)
    if rest = 0 then .ok (s.getD base .nan)
    else
      .ok (jsAdd (s.getD base .nan)
        (jsMul (.fin rest) (jsSub (s.getD (base + 1) .nan) (s.getD base .nan))))

end stats

/-- The array returned by `measureLatency` (`cli.js` lines 166-171):
`[Math.min(...ms), Math.max(...ms), stats.average(ms), stats.median(ms)]`.
An `InvalidInput` failure of the statistics functions (empty sample set)
rejects the surrounding async function, modelled by the `Except SErr`
layer. -/
def latencySummary (ms : List JSNum) : Except SErr (JSNum × JSNum × JSNum × JSNum) := do
  let avg ← stats.average ms
  let med ← stats.median ms
  .ok (jsMathMin ms, jsMathMax ms, avg, med)

/-- `measureLatency` (`cli.js` lines 151-172): 20 sequential `download(1000)`
probes, each successful one contributing `response[4] - response[0] -
response[6]`; failures are logged and skipped; finally the min/max/average/
median summary of the accumulated samples. -/
def measureLatency (net : Net) :
    Except JsError (List String × Except SErr (JSNum × JSNum × JSNum × JSNum)) := do
  let (ms, logs) ← measureRun latencySample (latencyProbe net) 0 20
  .ok (logs, latencySummary ms)

/-- `measureDownload` (`cli.js` lines 174-190). -/
def measureDownload (bytes iterations : Nat) (net : Net) :
    Except JsError (List JSNum × List String) :=
  measureRun (downloadSample bytes) (downloadProbe net bytes) 0 iterations

/-- `measureUpload` (`cli.js` lines 192-208). -/
def measureUpload (bytes iterations : Nat) (net : Net) :
    Except JsError (List JSNum × List String) :=
  measureRun (uploadSample bytes) (uploadProbe net bytes) 0 iterations

/-- The (payload size, iteration count) pairs of the six `measureDownload`
calls of `speedTest`, in call order (`cli.js` lines 235-257). -/
def downloadPlan : List (Nat × Nat) :=
  [(11000, 10), (101000, 10), (1001000, 8), (10001000, 5), (25001000, 5), (100001000, 5)]

/-- The (payload size, iteration count) pairs of the three `measureUpload`
calls of `speedTest`, in call order (`cli.js` lines 274-276). -/
def uploadPlan : List (Nat × Nat) :=
  [(11000, 10), (101000, 10), (1001000, 8)]

/-- The download section of `speedTest` (`cli.js` lines 235-272): six
sequential `measureDownload` calls; per size the reported figure is
`stats.median(test)` (`logSpeedTestResult`, line 215), and the headline
figure is `stats.quartile([...test1, ..., ...test6], 0.9)`. -/
def speedTestDownloadStage (net : Net) :
    Except JsError (List (Except SErr JSNum) × Except SErr JSNum) := do
  let (test1, _) ← measureDownload 11000 10 net
  let (test2, _) ← measureDownload 101000 10 net
  let (test3, _) ← measureDownload 1001000 8 net
  let (test4, _) ← measureDownload 10001000 5 net
  let (test5, _) ← measureDownload 25001000 5 net
  let (test6, _) ← measureDownload 100001000 5 net
  .ok ([stats.median test1, stats.median test2, stats.median test3,
        stats.median test4, stats.median test5, stats.median test6],
    stats.quartile (test1 ++ (test2 ++ (test3 ++ (test4 ++ (test5 ++ test6))))) (9 / 10))

/-- The upload section of `speedTest` (`cli.js` lines 274-286): three
sequential `measureUpload` calls; the headline figure is
`stats.quartile([...test7, ...test8, ...test9], 0.9)`. -/
def speedTestUploadStage (net : Net) : Except JsError (Except SErr JSNum) := do
  let (test7, _) ← measureUpload 11000 10 net
  let (test8, _) ← measureUpload 101000 10 net
  let (test9, _) ← measureUpload 1001000 8 net
  .ok (stats.quartile (test7 ++ (test8 ++ test9)) (9 / 10))

/-- Per-size download sample lists described by the plan. -/
def planSamples (net : Net) : List (List JSNum) :=
  downloadPlan.map fun p => runSamples (downloadSample p.1) (downloadProbe net p.1) 0 p.2

/-- Per-size upload sample lists described by the plan. -/
def uploadPlanSamples (net : Net) : List (List JSNum) :=
  uploadPlan.map fun p => runSamples (uploadSample p.1) (uploadProbe net p.1) 0 p.2

/-- Concrete response events: well-formed probe whose `server-timing` header
parses to 5 ms. -/
def evGood : ResponseEvents :=
  { started := 0, dnsLookup := some 1, tcpHandshake := some 2, sslHandshake := some 3,
    timeToFirstByte := 10, ended := 20, serverTiming := some "cfRequestDuration;dur=5" }

/-- Concrete response events: the response carries no `server-timing`
header. -/
def evMissingHeader : ResponseEvents :=
  { started := 0, dnsLookup := none, tcpHandshake := none, sslHandshake := none,
    timeToFirstByte := 10, ended := 20, serverTiming := none }

/-- Concrete response events: the `server-timing` value is non-numeric after
the fixed 22-character offset. -/
def evBadHeader : ResponseEvents :=
  { started := 0, dnsLookup := none, tcpHandshake := none, sslHandshake := none,
    timeToFirstByte := 10, ended := 20, serverTiming := some "cfRequestDuration;dur=junk" }

/-- The timing tuple resolved from `evBadHeader` (NaN processing time). -/
def sampleBad : TimingSample :=
  { started := 0, dnsLookup := none, tcpHandshake := none, sslHandshake := none,
    timeToFirstByte := 10, ended := 20, serverProcessingTimeMs := .nan }

/-- Environment in which every probe completes as `evGood`. -/
def netGood : Net := fun _ _ _ => .respond evGood

/-- Environment in which probe 1 fails at the network level and all other
probes complete as `evGood`. -/
def netOneFail : Net := fun i _ _ => if i = 1 then .fail "socket hang up" else .respond evGood

/-- Environment in which every probe fails at the network level. -/
def netAllFail : Net := fun _ _ _ => .fail "read ECONNRESET"

/-- Environment in which every response lacks the `server-timing` header. -/
def netMissingHeader : Net := fun _ _ _ => .respond evMissingHeader

/-- Environment in which every response carries an unparsable
`server-timing` value. -/
def netBadHeader : Net := fun _ _ _ => .respond evBadHeader

/-- Concrete timing tuple without connection-establishment timestamps. -/
def sampleA : TimingSample :=
  { started := 0, dnsLookup := none, tcpHandshake := none, sslHandshake := none,
    timeToFirstByte := 10, ended := 20, serverProcessingTimeMs := .fin 3 }

/-- `sampleA` with connection-establishment timestamps filled in; it agrees
with `sampleA` on every field the measurement stages read. -/
def sampleB : TimingSample :=
  { started := 0, dnsLookup := some 1, tcpHandshake := some 2, sslHandshake := some 3,
    timeToFirstByte := 10, ended := 20, serverProcessingTimeMs := .fin 3 }

theorem jsDiv_fin_of_ne (a b : ℚ) (hb : b ≠ 0) : jsDiv (.fin a) (.fin b) = .fin (a / b) := by
  simp [jsDiv, hb]

theorem jsDiv_fin_zero_pos (a : ℚ) (ha : 0 < a) : jsDiv (.fin a) (.fin 0) = .posInf := by
  simp [jsDiv, ha]

theorem jsDiv_posInf_fin_nonneg (b : ℚ) (hb : 0 ≤ b) : jsDiv .posInf (.fin b) = .posInf := by
  simp [jsDiv, hb]

theorem noCrash_tail {probe : Nat → RequestBehavior} {i n : Nat}
    (h : noCrash probe i (n + 1)) : noCrash probe (i + 1) n := by
  intro j hj
  have h2 := h (j + 1) (by omega)
  have h3 : i + (j + 1) = i + 1 + j := by omega
  rwa [h3] at h2

theorem measureRun_eq (value : TimingSample → JSNum) (probe : Nat → RequestBehavior) :
    ∀ n i, noCrash probe i n →
      measureRun value probe i n = .ok (runSamples value probe i n, runLogs probe i n) := by
  intro n
  induction n with
  | zero =>
    intro i _
    simp [measureRun, runSamples, runLogs]
  | succ n ih =>
    intro i h
    have h0 : (request (probe i)).isCrash = false := by simpa using h 0 (by omega)
    have hih := ih (i + 1) (noCrash_tail h)
    rcases hr : request (probe i) with t | e | e
    · simp only [measureRun]
      rw [hr, hih]
      simp [runSamples, runLogs, List.range'_succ, List.filterMap_cons, hr]
    · simp only [measureRun]
      rw [hr, hih]
      simp [runSamples, runLogs, List.range'_succ, List.filterMap_cons, hr]
    · rw [hr] at h0
      simp [RequestResult.isCrash] at h0

theorem measureRun_succ_crashed (value : TimingSample → JSNum) (probe : Nat → RequestBehavior)
    (i n : Nat) (e : JsError) (hr : request (probe i) = .crashed e) :
    measureRun value probe i (n + 1) = .error e := by
  simp only [measureRun]
  rw [hr]

theorem measureRun_succ_resolved (value : TimingSample → JSNum) (probe : Nat → RequestBehavior)
    (i n : Nat) (t : TimingSample) (hr : request (probe i) = .resolved t) :
    measureRun value probe i (n + 1) =
      (measureRun value probe (i + 1) n).map fun r => (value t :: r.1, r.2) := by
  simp only [measureRun]
  rw [hr]
  cases hx : measureRun value probe (i + 1) n with
  | error e2 => simp [Except.map]
  | ok r => cases r with
    | mk ms logs => simp [Except.map]

theorem filterMap_skips_none {β : Type} (f : Nat → Option β) (i : Nat) (hf : f i = none) :
    ∀ l : List Nat, l.filterMap f = (l.filter fun j => j ≠ i).filterMap f := by
  intro l
  induction l with
  | nil => rfl
  | cons a l ih =>
    by_cases ha : a = i
    · subst ha
      simp [List.filterMap_cons, List.filter_cons, hf, ih]
    · simp [List.filterMap_cons, List.filter_cons, ha, ih]

theorem flatten_replicate_zero_chars (n : Nat) :
    (List.replicate n ['0']).flatten = List.replicate n '0' := by
  induction n with
  | zero => rfl
  | succ n ih => simp [List.replicate_succ, ih]

theorem foldl_utf8Size_replicate_zero (n : Nat) :
    ∀ a : Nat, List.foldl (fun m c => m + c.utf8Size) a (List.replicate n '0') = a + n := by
  induction n with
  | zero => intro a; simp
  | succ n ih =>
    intro a
    have h1 : Char.utf8Size '0' = 1 := rfl
    simp only [List.replicate_succ, List.foldl_cons, h1, ih]
    omega

theorem byteLength_uploadData (bytes : Nat) : byteLength (uploadData bytes) = bytes := by
  have h1 : uploadData bytes = ⟨List.replicate bytes '0'⟩ := by
    simp only [uploadData, jsRepeat]
    rw [flatten_replicate_zero_chars]
  rw [h1]
  show List.foldl (fun m c => m + c.utf8Size) 0 (List.replicate bytes '0') = bytes
  rw [foldl_utf8Size_replicate_zero]
  omega

theorem except_bind_ok {ε α β : Type} (a : α) (f : α → Except ε β) :
    (Except.ok a : Except ε α) >>= f = f a := rfl

theorem jsMin2_fin_fin (a q : ℚ) : jsMin2 (.fin a) (.fin q) = .fin (min a q) := by
  by_cases haq : a ≤ q <;> simp [jsMin2, min_def, haq]

theorem jsMax2_fin_fin (a q : ℚ) : jsMax2 (.fin a) (.fin q) = .fin (max a q) := by
  by_cases haq : a ≤ q <;> simp [jsMax2, max_def, haq]

theorem foldl_jsMin2_fin (qs : List ℚ) :
    ∀ a : ℚ, (qs.map JSNum.fin).foldl jsMin2 (.fin a) = .fin (qs.foldl min a) := by
  induction qs with
  | nil => intro a; rfl
  | cons q qs ih =>
    intro a
    simp only [List.map_cons, List.foldl_cons, jsMin2_fin_fin, ih]

theorem foldl_jsMax2_fin (qs : List ℚ) :
    ∀ a : ℚ, (qs.map JSNum.fin).foldl jsMax2 (.fin a) = .fin (qs.foldl max a) := by
  induction qs with
  | nil => intro a; rfl
  | cons q qs ih =>
    intro a
    simp only [List.map_cons, List.foldl_cons, jsMax2_fin_fin, ih]

theorem jsMathMin_fin_cons (q : ℚ) (qs : List ℚ) :
    jsMathMin ((q :: qs).map JSNum.fin) = .fin (qs.foldl min q) := by
  have h0 : jsMin2 .posInf (.fin q) = .fin q := rfl
  simp only [jsMathMin, List.map_cons, List.foldl_cons, h0, foldl_jsMin2_fin]

theorem jsMathMax_fin_cons (q : ℚ) (qs : List ℚ) :
    jsMathMax ((q :: qs).map JSNum.fin) = .fin (qs.foldl max q) := by
  have h0 : jsMax2 .negInf (.fin q) = .fin q := rfl
  simp only [jsMathMax, List.map_cons, List.foldl_cons, h0, foldl_jsMax2_fin]

/-- C1: `measureSpeed` computes `(bytes * 8) / (durationMs / 1000) /
1_000_000` megabits per second — exactly, as rationals, for every nonzero
duration — and at bytes = 1,000,000 and durationMs = 1000 it returns
exactly 8. -/
theorem measureSpeed_formula (b d : ℚ) (hd : d ≠ 0) :
    measureSpeed (.fin b) (.fin d) = .fin (b * 8 / (d / 1000) / 1000000) ∧
      measureSpeed (.fin 1000000) (.fin 1000) = .fin 8 := by
  have hgen : ∀ b0 d0 : ℚ, d0 ≠ 0 →
      measureSpeed (.fin b0) (.fin d0) = .fin (b0 * 8 / (d0 / 1000) / 1000000) := by
    intro b0 d0 hd0
    have h1 : jsMul (.fin b0) (.fin 8) = .fin (b0 * 8) := rfl
    have h3 : d0 / 1000 ≠ 0 := div_ne_zero hd0 (by norm_num)
    simp only [measureSpeed, h1, jsDiv_fin_of_ne _ _ (show (1000:ℚ) ≠ 0 by norm_num),
      jsDiv_fin_of_ne _ _ h3, jsDiv_fin_of_ne _ _ (show (1000000:ℚ) ≠ 0 by norm_num)]
  refine ⟨hgen b d hd, ?_⟩
  rw [hgen 1000000 1000 (by norm_num)]
  norm_num

/-- C1 witness: the duration hypothesis holds at the spec's own example
input, where the computed value is exactly 8 Mbps. -/
theorem measureSpeed_formula_witness :
    (1000 : ℚ) ≠ 0 ∧
      (measureSpeed (.fin 1000000) (.fin 1000) = .fin (1000000 * 8 / (1000 / 1000) / 1000000) ∧
        measureSpeed (.fin 1000000) (.fin 1000) = .fin 8) :=
  ⟨by norm_num, measureSpeed_formula 1000000 1000 (by norm_num)⟩

/-- C5 counterexample: `measureSpeed` is a total function with no error
outcome; called with durationMs = 0 (and bytes = 1,000,000) it silently
divides and returns +∞ — it does not fail with `InvalidInput`. -/
theorem measureSpeed_zero_duration_counterexample :
    measureSpeed (.fin 1000000) (.fin 0) = .posInf := by
  have h1 : jsMul (.fin (1000000 : ℚ)) (.fin 8) = .fin 8000000 := by
    show JSNum.fin ((1000000 : ℚ) * 8) = .fin 8000000
    norm_num
  have h2 : jsDiv (.fin (0 : ℚ)) (.fin 1000) = .fin 0 := by
    rw [jsDiv_fin_of_ne _ _ (by norm_num)]
    norm_num
  have h3 : jsDiv (.fin (8000000 : ℚ)) (.fin 0) = .posInf :=
    jsDiv_fin_zero_pos _ (by norm_num)
  have h4 : jsDiv JSNum.posInf (.fin (1000000 : ℚ)) = .posInf :=
    jsDiv_posInf_fin_nonneg _ (by norm_num)
  simp only [measureSpeed, h1, h2, h3, h4]

/-- C5 as amended: `measureSpeed` performs no validation of the duration;
with durationMs = 0 and any positive byte count it silently divides and
returns +∞ (there is no `InvalidInput` failure path). -/
theorem measureSpeed_zero_duration_amended (b : ℚ) (hb : 0 < b) :
    measureSpeed (.fin b) (.fin 0) = .posInf := by
  have h1 : jsMul (.fin b) (.fin 8) = .fin (b * 8) := rfl
  have h2 : jsDiv (.fin (0 : ℚ)) (.fin 1000) = .fin 0 := by
    rw [jsDiv_fin_of_ne _ _ (by norm_num)]
    norm_num
  have h3 : jsDiv (.fin (b * 8)) (.fin 0) = .posInf :=
    jsDiv_fin_zero_pos _ (by positivity)
  have h4 : jsDiv JSNum.posInf (.fin (1000000 : ℚ)) = .posInf :=
    jsDiv_posInf_fin_nonneg _ (by norm_num)
  simp only [measureSpeed, h1, h2, h3, h4]

/-- C5 amended witness: positivity holds at bytes = 1,000,000. -/
theorem measureSpeed_zero_duration_amended_witness :
    (0 : ℚ) < 1000000 ∧ measureSpeed (.fin 1000000) (.fin 0) = .posInf :=
  ⟨by norm_num, measureSpeed_zero_duration_amended 1000000 (by norm_num)⟩

/-- C9: a download probe issues a GET whose path carries the requested byte
count as a query parameter, and an upload probe issues a POST whose body is
exactly `bytes` bytes with a `Content-Length` header equal to the body's
byte size. -/
theorem transfer_request_shape (bytes : Nat) :
    (downloadOptions bytes).method = "GET" ∧
      (downloadOptions bytes).path = "/__down?bytes=" ++ toString bytes ∧
      (uploadOptions bytes).method = "POST" ∧
      byteLength (uploadData bytes) = bytes ∧
      (uploadOptions bytes).contentLength = some (byteLength (uploadData bytes)) :=
  ⟨rfl, rfl, rfl, byteLength_uploadData bytes, rfl⟩

/-- C10: the reported values never read the connection-establishment
timestamps — two timing samples agreeing on `started`, `timeToFirstByte`,
`ended` and `serverProcessingTimeMs` (but possibly differing in `dnsLookup`,
`tcpHandshake`, `sslHandshake`) yield identical latency, download and upload
values. -/
theorem timing_noninterference (bytes : Nat) (s1 s2 : TimingSample)
    (h0 : s1.started = s2.started) (h1 : s1.timeToFirstByte = s2.timeToFirstByte)
    (h2 : s1.ended = s2.ended) (h3 : s1.serverProcessingTimeMs = s2.serverProcessingTimeMs) :
    latencySample s1 = latencySample s2 ∧
      downloadSample bytes s1 = downloadSample bytes s2 ∧
      uploadSample bytes s1 = uploadSample bytes s2 := by
  refine ⟨?_, ?_, ?_⟩ <;> simp [latencySample, downloadSample, uploadSample, h0, h1, h2, h3]

/-- C10 witness: two concrete samples differing exactly in the three
connection-establishment fields produce the same stage values. -/
theorem timing_noninterference_witness :
    (sampleA.started = sampleB.started ∧ sampleA.timeToFirstByte = sampleB.timeToFirstByte ∧
      sampleA.ended = sampleB.ended ∧
      sampleA.serverProcessingTimeMs = sampleB.serverProcessingTimeMs) ∧
    (latencySample sampleA = latencySample sampleB ∧
      downloadSample 1000 sampleA = downloadSample 1000 sampleB ∧
      uploadSample 1000 sampleA = uploadSample 1000 sampleB) :=
  ⟨⟨rfl, rfl, rfl, rfl⟩, timing_noninterference 1000 sampleA sampleB rfl rfl rfl rfl⟩

/-- C2: the latency stage runs exactly 20 `download(1000)` probes; each
successful probe contributes `timeToFirstByte - started -
serverProcessingTimeMs` (for a finite server time this is the plain
rational difference); the reported value is the tuple (min, max, average,
median) of the accumulated samples, where the modelled `Math.min` and
`Math.max` compute the true minimum and maximum of finite sample lists. -/
theorem latency_stage_reports (net : Net) (h : noCrash (latencyProbe net) 0 20) :
    measureLatency net =
      .ok (runLogs (latencyProbe net) 0 20,
        latencySummary (runSamples latencySample (latencyProbe net) 0 20)) ∧
      (∀ (t : TimingSample) (st : ℚ), t.serverProcessingTimeMs = .fin st →
        latencySample t = .fin (t.timeToFirstByte - t.started - st)) ∧
      (∀ (q : ℚ) (qs : List ℚ),
        jsMathMin ((q :: qs).map JSNum.fin) = .fin (qs.foldl min q) ∧
          jsMathMax ((q :: qs).map JSNum.fin) = .fin (qs.foldl max q)) := by
  refine ⟨?_, ?_, ?_⟩
  · simp only [measureLatency]
    rw [measureRun_eq latencySample (latencyProbe net) 20 0 h]
    rfl
  · intro t st hst
    simp only [latencySample, hst]
    rfl
  · intro q qs
    exact ⟨jsMathMin_fin_cons q qs, jsMathMax_fin_cons q qs⟩

/-- C2 witness: in an environment where all 20 probes complete, the stage
reports logs and the summary of exactly the resolved samples. -/
theorem latency_stage_reports_witness :
    noCrash (latencyProbe netGood) 0 20 ∧
      measureLatency netGood =
        .ok (runLogs (latencyProbe netGood) 0 20,
          latencySummary (runSamples latencySample (latencyProbe netGood) 0 20)) :=
  ⟨by decide, (latency_stage_reports netGood (by decide)).1⟩

/-- C3: the download plan iterates ascending payload sizes; the stage
reports `stats.median` per size and the headline figure is
`stats.quartile` at 0.9 over the concatenation of all per-size sample
lists, each successful probe contributing
`measureSpeed(payloadSize, ended - timeToFirstByte)`. -/
theorem download_stage_plan (net : Net)
    (h : ∀ p ∈ downloadPlan, noCrash (downloadProbe net p.1) 0 p.2) :
    List.Chain' (fun a b => a < b) (downloadPlan.map Prod.fst) ∧
      speedTestDownloadStage net =
        .ok ((planSamples net).map stats.median,
          stats.quartile (planSamples net).flatten (9 / 10)) ∧
      (∀ (bytes : Nat) (t : TimingSample),
        downloadSample bytes t =
          measureSpeed (.fin (bytes : ℚ)) (.fin (t.ended - t.timeToFirstByte))) := by
  refine ⟨?_, ?_, fun bytes t => rfl⟩
  · norm_num [downloadPlan, List.chain'_cons]
  · have h1 := measureRun_eq (downloadSample 11000) (downloadProbe net 11000) 10 0
      (h (11000, 10) (by simp [downloadPlan]))
    have h2 := measureRun_eq (downloadSample 101000) (downloadProbe net 101000) 10 0
      (h (101000, 10) (by simp [downloadPlan]))
    have h3 := measureRun_eq (downloadSample 1001000) (downloadProbe net 1001000) 8 0
      (h (1001000, 8) (by simp [downloadPlan]))
    have h4 := measureRun_eq (downloadSample 10001000) (downloadProbe net 10001000) 5 0
      (h (10001000, 5) (by simp [downloadPlan]))
    have h5 := measureRun_eq (downloadSample 25001000) (downloadProbe net 25001000) 5 0
      (h (25001000, 5) (by simp [downloadPlan]))
    have h6 := measureRun_eq (downloadSample 100001000) (downloadProbe net 100001000) 5 0
      (h (100001000, 5) (by simp [downloadPlan]))
    simp only [speedTestDownloadStage, measureDownload, h1, h2, h3, h4, h5, h6,
      except_bind_ok]
    simp [planSamples, downloadPlan]

/-- C3 witness: in an all-successful environment the download stage equals
the plan-described medians and 0.9-quartile headline. -/
theorem download_stage_plan_witness :
    (∀ p ∈ downloadPlan, noCrash (downloadProbe netGood p.1) 0 p.2) ∧
      speedTestDownloadStage netGood =
        .ok ((planSamples netGood).map stats.median,
          stats.quartile (planSamples netGood).flatten (9 / 10)) :=
  ⟨by decide, (download_stage_plan netGood (by decide)).2.1⟩

/-- C4: every upload probe's throughput uses the server-reported processing
duration (`serverProcessingTimeMs`) as elapsed time, and the headline
upload figure is `stats.quartile` at 0.9 over the concatenation of all
upload samples of the stage. -/
theorem upload_stage_server_timing (net : Net)
    (h : ∀ p ∈ uploadPlan, noCrash (uploadProbe net p.1) 0 p.2) :
    speedTestUploadStage net =
      .ok (stats.quartile (uploadPlanSamples net).flatten (9 / 10)) ∧
      (∀ (bytes : Nat) (t : TimingSample),
        uploadSample bytes t = measureSpeed (.fin (bytes : ℚ)) t.serverProcessingTimeMs) := by
  refine ⟨?_, fun bytes t => rfl⟩
  have h1 := measureRun_eq (uploadSample 11000) (uploadProbe net 11000) 10 0
    (h (11000, 10) (by simp [uploadPlan]))
  have h2 := measureRun_eq (uploadSample 101000) (uploadProbe net 101000) 10 0
    (h (101000, 10) (by simp [uploadPlan]))
  have h3 := measureRun_eq (uploadSample 1001000) (uploadProbe net 1001000) 8 0
    (h (1001000, 8) (by simp [uploadPlan]))
  simp only [speedTestUploadStage, measureUpload, h1, h2, h3, except_bind_ok]
  simp [uploadPlanSamples, uploadPlan]

/-- C4 witness: in an all-successful environment the upload stage headline
equals the 0.9-quartile over the concatenated upload samples. -/
theorem upload_stage_server_timing_witness :
    (∀ p ∈ uploadPlan, noCrash (uploadProbe netGood p.1) 0 p.2) ∧
      speedTestUploadStage netGood =
        .ok (stats.quartile (uploadPlanSamples netGood).flatten (9 / 10)) :=
  ⟨by decide, (upload_stage_server_timing netGood (by decide)).1⟩

/-- C6: in each stage, a probe whose transfer fails at the network level is
caught — the stage result is still `ok` — its error message is reported in
the log list, it contributes no sample (the sample list equals the one
taken over all other probe indices), and the remaining iterations still
produce the stage's samples and summary. -/
theorem probe_failure_isolation (net : Net) (bytes iters i : Nat) (e : String)
    (hi : i < iters) (hi20 : i < 20)
    (hfd : downloadProbe net bytes i = .fail e)
    (hfu : uploadProbe net bytes i = .fail e)
    (hfl : latencyProbe net i = .fail e)
    (hd : noCrash (downloadProbe net bytes) 0 iters)
    (hu : noCrash (uploadProbe net bytes) 0 iters)
    (hl : noCrash (latencyProbe net) 0 20) :
    (measureDownload bytes iters net =
        .ok (runSamples (downloadSample bytes) (downloadProbe net bytes) 0 iters,
          runLogs (downloadProbe net bytes) 0 iters) ∧
      e ∈ runLogs (downloadProbe net bytes) 0 iters ∧
      runSamples (downloadSample bytes) (downloadProbe net bytes) 0 iters =
        ((List.range' 0 iters).filter fun j => j ≠ i).filterMap fun j =>
          match request (downloadProbe net bytes j) with
          | .resolved t => some (downloadSample bytes t)
          | _ => none) ∧
    (measureUpload bytes iters net =
        .ok (runSamples (uploadSample bytes) (uploadProbe net bytes) 0 iters,
          runLogs (uploadProbe net bytes) 0 iters) ∧
      e ∈ runLogs (uploadProbe net bytes) 0 iters ∧
      runSamples (uploadSample bytes) (uploadProbe net bytes) 0 iters =
        ((List.range' 0 iters).filter fun j => j ≠ i).filterMap fun j =>
          match request (uploadProbe net bytes j) with
          | .resolved t => some (uploadSample bytes t)
          | _ => none) ∧
    (measureLatency net =
        .ok (runLogs (latencyProbe net) 0 20,
          latencySummary (runSamples latencySample (latencyProbe net) 0 20)) ∧
      e ∈ runLogs (latencyProbe net) 0 20) := by
  have hmemD : i ∈ List.range' 0 iters := by
    rw [List.mem_range'_1]
    omega
  have hmemL : i ∈ List.range' 0 20 := by
    rw [List.mem_range'_1]
    omega
  have hreqD : request (downloadProbe net bytes i) = .rejected e := by
    rw [hfd]
    rfl
  have hreqU : request (uploadProbe net bytes i) = .rejected e := by
    rw [hfu]
    rfl
  have hreqL : request (latencyProbe net i) = .rejected e := by
    rw [hfl]
    rfl
  refine ⟨⟨measureRun_eq _ _ _ _ hd, ?_, ?_⟩, ⟨measureRun_eq _ _ _ _ hu, ?_, ?_⟩, ?_, ?_⟩
  · exact List.mem_filterMap.2 ⟨i, hmemD, by simp [hreqD]⟩
  · exact filterMap_skips_none _ i (by simp [hreqD]) _
  · exact List.mem_filterMap.2 ⟨i, hmemD, by simp [hreqU]⟩
  · exact filterMap_skips_none _ i (by simp [hreqU]) _
  · simp only [measureLatency]
    rw [measureRun_eq latencySample (latencyProbe net) 20 0 hl]
    rfl
  · exact List.mem_filterMap.2 ⟨i, hmemL, by simp [hreqL]⟩

/-- C6 witness: with probe index 1 failing in every stage, all hypotheses
hold concretely and the failed probe's error is reported in the download
stage's log. -/
theorem probe_failure_isolation_witness :
    ((1 : Nat) < 5 ∧ downloadProbe netOneFail 11000 1 = .fail "socket hang up") ∧
      "socket hang up" ∈ runLogs (downloadProbe netOneFail 11000) 0 5 :=
  ⟨⟨by decide, rfl⟩,
    (probe_failure_isolation netOneFail 11000 5 1 "socket hang up" (by decide) (by decide)
        rfl rfl rfl (by decide) (by decide) (by decide)).1.2.1⟩

/-- C7: if all 20 latency probes fail, the sample set is empty and the
stage's summary fails with `InvalidInput` (it is not a silently returned
number); every spec-modelled statistics function fails with `InvalidInput`
on an empty sequence. -/
theorem all_probes_failed_invalid_input (net : Net)
    (h : ∀ j, j < 20 → (latencyProbe net j).isFail = true) :
    measureLatency net =
      .ok (runLogs (latencyProbe net) 0 20, .error SErr.invalidInput) ∧
      stats.average [] = .error SErr.invalidInput ∧
      stats.median [] = .error SErr.invalidInput ∧
      (∀ q : ℚ, stats.quartile [] q = .error SErr.invalidInput) := by
  have hreq : ∀ j, j < 20 → ∃ e0, request (latencyProbe net j) = .rejected e0 := by
    intro j hj
    cases hx : latencyProbe net j with
    | respond ev =>
      exfalso
      have hb := h j hj
      rw [hx] at hb
      simp [RequestBehavior.isFail] at hb
    | fail e0 =>
      exact ⟨e0, rfl⟩
  have hnc : noCrash (latencyProbe net) 0 20 := by
    intro j hj
    obtain ⟨e0, he⟩ := hreq (0 + j) (by omega)
    rw [he]
    rfl
  have hsamples : runSamples latencySample (latencyProbe net) 0 20 = [] := by
    rw [runSamples, List.filterMap_eq_nil_iff]
    intro j hj
    rw [List.mem_range'_1] at hj
    obtain ⟨e0, he⟩ := hreq j (by omega)
    simp [he]
  refine ⟨?_, rfl, rfl, fun q => rfl⟩
  simp only [measureLatency]
  rw [measureRun_eq latencySample (latencyProbe net) 20 0 hnc, hsamples]
  rfl

/-- C7 witness: in an environment where every probe's connection is reset,
the latency stage's summary is the `InvalidInput` failure. -/
theorem all_probes_failed_invalid_input_witness :
    (∀ j, j < 20 → (latencyProbe netAllFail j).isFail = true) ∧
      measureLatency netAllFail =
        .ok (runLogs (latencyProbe netAllFail) 0 20, .error SErr.invalidInput) :=
  ⟨by decide, (all_probes_failed_invalid_input netAllFail (by decide)).1⟩

/-- C8 counterexample: probes with missing or unparsable `server-timing`
headers are not treated as failed transfers to skip.  With the header
missing on probe 0, the upload stage run aborts with an uncaught
`TypeError` (it does not continue with remaining probes); with an
unparsable header on both probes, each probe resolves (as shown for the
concrete events) and both contribute NaN samples to the sample set (none is
excluded). -/
theorem header_malformed_counterexample :
    measureUpload 500000 2 netMissingHeader = .error JsError.typeError ∧
      request (.respond evBadHeader) = .resolved sampleBad ∧
      measureUpload 500000 2 netBadHeader = .ok ([JSNum.nan, JSNum.nan], []) :=
  ⟨by decide, by decide, by decide⟩

/-- C8 as amended: a response lacking the `server-timing` header raises an
uncaught `TypeError` that aborts the stage run (the probe's promise never
settles, so the per-probe error handler cannot catch it), while a response
whose header value is non-numeric at the fixed offset 22 resolves normally
and its probe is included in the sample set with the parsed (possibly NaN)
value. -/
theorem header_malformed_amended (net : Net) (bytes n : Nat) (ev : ResponseEvents)
    (h0 : uploadProbe net bytes 0 = .respond ev) :
    (ev.serverTiming = none → measureUpload bytes (n + 1) net = .error JsError.typeError) ∧
      (∀ hdr, ev.serverTiming = some hdr →
        measureUpload bytes (n + 1) net =
          (measureRun (uploadSample bytes) (uploadProbe net bytes) 1 n).map fun r =>
            (measureSpeed (.fin (bytes : ℚ)) (parseFloat (jsSlice hdr 22)) :: r.1, r.2)) := by
  constructor
  · intro hnone
    have hr : request (uploadProbe net bytes 0) = .crashed .typeError := by
      rw [h0]
      simp [request, hnone]
    exact measureRun_succ_crashed _ _ 0 n _ hr
  · intro hdr hsome
    have hr : request (uploadProbe net bytes 0) = .resolved
        { started := ev.started, dnsLookup := ev.dnsLookup, tcpHandshake := ev.tcpHandshake,
          sslHandshake := ev.sslHandshake, timeToFirstByte := ev.timeToFirstByte,
          ended := ev.ended, serverProcessingTimeMs := parseFloat (jsSlice hdr 22) } := by
      rw [h0]
      simp [request, hsome]
    have hstep := measureRun_succ_resolved (uploadSample bytes) (uploadProbe net bytes) 0 n _ hr
    simp only [measureUpload]
    simpa [uploadSample] using hstep

/-- C8 amended witness: at the concrete unparsable-header environment the
first upload probe resolves and its NaN-valued sample is consed onto the
remaining run. -/
theorem header_malformed_amended_witness :
    uploadProbe netBadHeader 500000 0 = .respond evBadHeader ∧
      measureUpload 500000 2 netBadHeader =
        (measureRun (uploadSample 500000) (uploadProbe netBadHeader 500000) 1 1).map fun r =>
          (measureSpeed (.fin ((500000 : Nat) : ℚ))
              (parseFloat (jsSlice "cfRequestDuration;dur=junk" 22)) :: r.1, r.2) :=
  ⟨rfl, (header_malformed_amended netBadHeader 500000 1 evBadHeader rfl).2
    "cfRequestDuration;dur=junk" rfl⟩

end SpeedCF
